import Mathlib

/-!
# Verification of AdClickGuard detection logic

Shallow embedding of the algorithmic core of the AdClickGuard browser
extension:

* the countdown confirmation state machine of `src/countdownWatcher.js`
  (`checkForNumericChange`, `setEnabled`) — called "variant A" below;
* the countdown confirmation state machine of `src/unnamed/part_000`
  (`checkForNumericChange`) — called "variant B" below;
* the ad classification pipeline of `src/adDetection.js`
  (`calculateAdConfidence`, `isElementLikelyAd`, `isElementLikelyContent`,
  `matchesEasyListSelectors`, `parseCosmeticFilters`, `createAdOverlay`,
  `removeAdOverlay`, `removeAllOverlays`).

DOM elements are modelled by identity (`Nat` ids) or by records of the
attributes the functions read.  JavaScript strings are Lean `String`s;
the JS helpers `includes` / `toLowerCase` / `trim` / `split` /
`startsWith` / `endsWith` are re-implemented below by structural
recursion on the character list so that every definition evaluates
inside the kernel (JS `toLowerCase` is modelled on the ASCII range,
which covers every literal the source compares against).
-/

/-- Whether `pat` is a prefix of the character list (JS substring machinery). -/
def isPrefixList : List Char → List Char → Bool
  | [], _ => true
  | _ :: _, [] => false
  | a :: as, b :: bs => a = b && isPrefixList as bs

/-- Whether `pat` occurs as a contiguous sublist (JS `String.includes`). -/
def subListAux (pat : List Char) : List Char → Bool
  | [] => pat.isEmpty
  | c :: rest => isPrefixList pat (c :: rest) || subListAux pat rest

/-- JS `s.includes(pat)`. -/
def strIncludes (s pat : String) : Bool := subListAux pat.toList s.toList

/-- ASCII lower-casing of one character (JS `toLowerCase` on ASCII). -/
def lowerChar (c : Char) : Char :=
  if 'A' ≤ c ∧ c ≤ 'Z' then Char.ofNat (c.toNat + 32) else c

/-- JS `s.toLowerCase()` (ASCII range). -/
def lowerStr (s : String) : String := ⟨s.toList.map lowerChar⟩

/-- Split on a non-empty separator; the fuel argument (initialised to the
string length, which always suffices) makes the recursion structural so
that the kernel can evaluate it.  Mirrors JS `String.split(sep)`. -/
def splitFuel (sep : List Char) : Nat → List Char → List Char → List (List Char)
  | 0, s, cur => [cur.reverse ++ s]
  | _ + 1, [], cur => [cur.reverse]
  | fuel + 1, c :: rest, cur =>
    if sep ≠ [] ∧ isPrefixList sep (c :: rest) then
      cur.reverse :: splitFuel sep fuel ((c :: rest).drop sep.length) []
    else
      splitFuel sep fuel rest (c :: cur)

/-- JS `s.split(sep)` for a non-empty separator. -/
def strSplit (s sep : String) : List String :=
  (splitFuel sep.toList s.toList.length s.toList []).map (fun l => ⟨l⟩)

/-- JS whitespace for `trim`. -/
def wsChar (c : Char) : Bool := c = ' ' || c = '\t' || c = '\n' || c = '\r'

/-- JS `s.trim()`. -/
def trimStr (s : String) : String :=
  ⟨((s.toList.dropWhile wsChar).reverse.dropWhile wsChar).reverse⟩

/-- JS `s.startsWith(pat)`. -/
def strStarts (s pat : String) : Bool := isPrefixList pat.toList s.toList

/-- JS `s.endsWith(pat)`. -/
def strEnds (s pat : String) : Bool := isPrefixList pat.toList.reverse s.toList.reverse

/-- DOM `classList` tokens derived from a `className` string: split on
whitespace, dropping empty tokens.  `classList.contains tok` is exact
token membership. -/
def classTokens (className : String) : List String :=
  (strSplit className " ").filter (fun t => t ≠ "")

/-!
## Countdown watcher, variant A (`src/countdownWatcher.js`)

Per-element tracker record (`elementTracker` values) and the per-session
state touched by `checkForNumericChange`.  `detected` models
`detectedCountdownElement !== null` and `focusApplied` models the
`countdown-focus-effect` class being present (applied by
`applyFocusEffect`, removed on completion).  Time stamps are the `now`
argument of each step (`Date.now()` at the moment the check runs).
-/

structure Tracker where
  lastValue : Nat
  lastCheckTime : Nat
  consecutiveDecreases : Nat
  deriving DecidableEq, Repr

structure AState where
  tracker : Option Tracker
  hasScrolledToCountdown : Bool
  detected : Bool
  focusApplied : Bool
  deriving DecidableEq, Repr

def initA : AState := ⟨none, false, false, false⟩

/-- One invocation of variant A's `checkForNumericChange` for a single
element, given the extracted numeric value `v` (`none` when
`extractNumericValue` returned null).  Translated branch for branch from
`src/countdownWatcher.js` lines 285–368; `handleConfirmedCountdown` +
`scrollToCountdown` + `applyFocusEffect` collapse to setting the three
flags (both branches of `scrollToCountdown` end with
`hasScrolledToCountdown = true`). -/
def stepA (minD maxD now : Nat) (s : AState) (v : Option Nat) : AState :=
  match v with
  | none =>
    -- countdown completed: drop tracker, remove focus effect and overlay
    if s.tracker.isSome then
      ⟨none, s.hasScrolledToCountdown, s.detected, false⟩
    else s
  | some n =>
    if n < minD ∨ maxD < n then
      -- outside configured range: remove from tracking (effects stay)
      if s.tracker.isSome then
        ⟨none, s.hasScrolledToCountdown, s.detected, s.focusApplied⟩
      else s
    else
      match s.tracker with
      | some t =>
        if n < t.lastValue then
          let cd := t.consecutiveDecreases + 1
          if 2 ≤ cd ∧ s.hasScrolledToCountdown = false then
            -- handleConfirmedCountdown: scroll, store element, focus effect
            ⟨some ⟨n, now, cd⟩, true, true, true⟩
          else
            ⟨some ⟨n, now, cd⟩, s.hasScrolledToCountdown, s.detected, s.focusApplied⟩
        else if t.lastValue < n then
          -- value increased: reset the counter
          ⟨some ⟨n, now, 0⟩, s.hasScrolledToCountdown, s.detected, s.focusApplied⟩
        else
          -- value unchanged: refresh lastValue/lastCheckTime, keep counter
          ⟨some ⟨n, now, t.consecutiveDecreases⟩, s.hasScrolledToCountdown, s.detected,
            s.focusApplied⟩
      | none => ⟨some ⟨n, now, 0⟩, s.hasScrolledToCountdown, s.detected, s.focusApplied⟩

/-- Run variant A from a fresh session over timed observations
`(now, extracted value)`. -/
def runA (minD maxD : Nat) (evs : List (Nat × Option Nat)) : AState :=
  evs.foldl (fun s e => stepA minD maxD e.1 s e.2) initA

/-!
## Countdown watcher, variant B (`src/unnamed/part_000`)

Same tracker record; the session state additionally carries the
`observing` flag cleared by `stopCountdownDetection`.  Values outside
the hard `[1, 120]` band are ignored before any tracking; the
configured `[minimumDuration, maximumDuration]` band is checked only at
confirmation time, an out-of-range confirmation deleting the tracker.
On confirmation the source sets `detectedCountdownElement`, scrolls,
applies the focus effect, and then calls `stopCountdownDetection`
(lines 242–279), which clears the whole `elementTracker` and resets
`hasScrolledToCountdown` to false and `detectedCountdownElement` back
to null — so the applied focus effect is the only session state that
persists past a confirmation.
-/

structure BState where
  tracker : Option Tracker
  hasScrolledToCountdown : Bool
  detected : Bool
  focusApplied : Bool
  observing : Bool
  deriving DecidableEq, Repr

def initB : BState := ⟨none, false, false, false, true⟩

/-- One invocation of variant B's `checkForNumericChange`
(`src/unnamed/part_000` lines 572–673), translated branch for branch. -/
def stepB (minD maxD now : Nat) (s : BState) (v : Option Nat) : BState :=
  match v with
  | none =>
    if s.tracker.isSome then
      ⟨none, s.hasScrolledToCountdown, s.detected, false, s.observing⟩
    else s
  | some n =>
    if n < 1 ∨ 120 < n then
      -- outside reasonable countdown range [1, 120]: ignore entirely
      s
    else
      match s.tracker with
      | some t =>
        if n < t.lastValue then
          let cd := t.consecutiveDecreases + 1
          if 2 ≤ cd then
            if minD ≤ n ∧ n ≤ maxD then
              if s.hasScrolledToCountdown = false ∧ s.detected = false then
                -- confirm: detectedCountdownElement := element, scroll
                -- (hasScrolledToCountdown := true), apply the focus
                -- effect, then stopCountdownDetection disconnects the
                -- observer, CLEARS the elementTracker and resets
                -- hasScrolledToCountdown / detectedCountdownElement
                ⟨none, false, false, true, false⟩
              else
                ⟨some ⟨n, now, cd⟩, s.hasScrolledToCountdown, s.detected, s.focusApplied,
                  s.observing⟩
            else
              -- confirmed but outside duration range: drop the tracker
              ⟨none, s.hasScrolledToCountdown, s.detected, s.focusApplied, s.observing⟩
          else
            ⟨some ⟨n, now, cd⟩, s.hasScrolledToCountdown, s.detected, s.focusApplied,
              s.observing⟩
        else if t.lastValue < n then
          -- value increased: reset the counter
          ⟨some ⟨n, now, 0⟩, s.hasScrolledToCountdown, s.detected, s.focusApplied, s.observing⟩
        else
          -- value unchanged: keep counter, refresh lastValue/lastCheckTime
          ⟨some ⟨n, now, t.consecutiveDecreases⟩, s.hasScrolledToCountdown, s.detected,
            s.focusApplied, s.observing⟩
      | none => ⟨some ⟨n, now, 0⟩, s.hasScrolledToCountdown, s.detected, s.focusApplied,
          s.observing⟩

/-- Run variant B from a fresh session over timed observations. -/
def runB (minD maxD : Nat) (evs : List (Nat × Option Nat)) : BState :=
  evs.foldl (fun s e => stepB minD maxD e.1 s e.2) initB

/-- Values carried by a timed observation list. -/
def valuesOf (evs : List (Nat × Option Nat)) : List Nat :=
  evs.filterMap (fun p => p.2)

/-!
## Specification predicate for confirmation (claim C1)

A transition of the observed value sequence `vs` is the step from
`vs[k]` to `vs[k+1]`.  The spec demands two strictly decreasing
transitions with no strictly increasing transition between them.
-/

/-- Transition `k` of `vs` strictly decreases the tracked value. -/
def decreaseAt (vs : List Nat) (k : Nat) : Prop :=
  k + 1 < vs.length ∧ vs.getD (k + 1) 0 < vs.getD k 0

/-- Transition `k` of `vs` strictly increases the tracked value. -/
def increaseAt (vs : List Nat) (k : Nat) : Prop :=
  k + 1 < vs.length ∧ vs.getD k 0 < vs.getD (k + 1) 0

/-- The sequence contains two strictly decreasing transitions with no
intervening increase (which would reset the `consecutiveDecreases`
counter) between them. -/
def confirmsTwoDecreases (vs : List Nat) : Prop :=
  ∃ i j, i < j ∧ decreaseAt vs i ∧ decreaseAt vs j ∧
    ∀ k, i < k → k < j → ¬ increaseAt vs k

def decreaseBeforeIncrease (vs : List Nat) : Prop :=
  ∃ j, decreaseAt vs j ∧ ∀ k, k < j → ¬ increaseAt vs k

def reach2 (lv cd : Nat) : List Nat → Bool
  | [] => false
  | v :: rest =>
    if v < lv then
      (if 2 ≤ cd + 1 then true else reach2 v (cd + 1) rest)
    else if lv < v then reach2 v 0 rest
    else reach2 v cd rest

/-!
## Machine-to-specification bridge for the confirmation claim
-/

def runFromA (minD maxD : Nat) (s : AState) (evs : List (Nat × Option Nat)) : AState :=
  evs.foldl (fun s e => stepA minD maxD e.1 s e.2) s

def runFromB (minD maxD : Nat) (s : BState) (evs : List (Nat × Option Nat)) : BState :=
  evs.foldl (fun s e => stepB minD maxD e.1 s e.2) s

instance (vs : List Nat) (k : Nat) : Decidable (decreaseAt vs k) := by
  unfold decreaseAt; infer_instance

instance (vs : List Nat) (k : Nat) : Decidable (increaseAt vs k) := by
  unfold increaseAt; infer_instance

/-!
## Ad detection (`src/adDetection.js`)

An element is modelled by the attributes the classifier reads.  The
`ancestors` field is the `parentElement` chain (nearest first, up to but
excluding `document`), used by the main-content penalty walk.  CSS
selector matching (`element.matches(sel)`, including its exception path
for invalid selectors) is abstracted as an oracle
`cssMatches : Elem → String → Bool`; `window.innerHeight` is the
`viewportH` parameter.
-/

structure AncNode where
  tagName : String
  id : String
  className : String
  deriving DecidableEq, Repr

structure Elem where
  tagName : String
  id : String
  className : String
  attrs : List String
  src : String
  width : Nat
  height : Nat
  textContent : String
  childCount : Nat
  alt : String
  href : String
  ancestors : List AncNode
  deriving DecidableEq, Repr

/-- JS `element.hasAttribute(name)`. -/
def hasAttr (e : Elem) (name : String) : Bool := e.attrs.contains name

/-- JS `element.classList.contains(tok)` (exact token, case-sensitive). -/
def classListContains (className tok : String) : Bool := (classTokens className).contains tok

/-- The `standardAdSizes` table of `calculateAdConfidence`
(`src/adDetection.js` lines 558–562, duplicates preserved). -/
def standardAdSizes : List (Nat × Nat) :=
  [(300, 250), (728, 90), (160, 600), (336, 280), (300, 600),
   (468, 60), (234, 60), (120, 600), (120, 240), (180, 150),
   (970, 90), (360, 300), (300, 600), (160, 600), (320, 50)]

/-- `Math.abs(a - b) <= 5` on naturals. -/
def within5 (a b : Nat) : Bool := a ≤ b + 5 && b ≤ a + 5

/-- Standard ad-size check of `calculateAdConfidence` (either orientation). -/
def sizeMatches (w h : Nat) : Bool :=
  standardAdSizes.any (fun p => (within5 w p.1 && within5 h p.2) || (within5 w p.2 && within5 h p.1))

/-- `matchesEasyListSelectors` (`src/adDetection.js` lines 675–693): false
on an empty selector list, otherwise whether any selector matches; the
try/catch skip of invalid selectors is absorbed by the oracle. -/
def matchesEasyListSelectors (cssMatches : Elem → String → Bool) (e : Elem)
    (cosmeticSelectors : List String) : Bool :=
  if cosmeticSelectors.isEmpty then false
  else cosmeticSelectors.any (fun sel => cssMatches e sel)

/-- One node of the main-content ancestor walk: matching any of
`['main', 'article', '#main', '.main-content', '#content', '.content']`
(`src/adDetection.js` lines 580–599; class matching splits the
lowercased class string on single spaces). -/
def mainContentNode (nd : AncNode) : Bool :=
  let tagName := lowerStr nd.tagName
  let id := lowerStr nd.id
  let className := lowerStr nd.className
  tagName == "main" || tagName == "article" || id == "main" ||
    (strSplit className " ").contains "main-content" || id == "content" ||
    (strSplit className " ").contains "content"

/-- The element's own data as a walk node. -/
def selfNode (e : Elem) : AncNode := ⟨e.tagName, e.id, e.className⟩

/-- The main-content ancestor walk of `calculateAdConfidence`, starting
from the element itself. -/
def isMainContent (e : Elem) : Bool := (selfNode e :: e.ancestors).any mainContentNode

/-- The cookie/consent-banner penalty token list. -/
def cookieIndicators : List String := ["cookie", "banner", "consent", "notice", "policy"]

/-- The navigation penalty token list. -/
def navIndicators : List String := ["nav", "header", "navigation", "menu"]

/-- The corroboration count of distinct ad indicators
(`src/adDetection.js` lines 655–665). -/
def adIndicatorsCount (e : Elem) : Nat :=
  (if hasAttr e "data-ad-client" then 1 else 0) +
  (if hasAttr e "data-google-av-ad" then 1 else 0) +
  (if hasAttr e "data-google-av-element" then 1 else 0) +
  (if hasAttr e "data-ad-slot" then 1 else 0) +
  (if hasAttr e "data-ad-format" then 1 else 0) +
  (if hasAttr e "data-google-query-id" then 1 else 0) +
  (if classListContains e.className "adsbygoogle" then 1 else 0) +
  (if classListContains e.className "google-ads" then 1 else 0) +
  (if classListContains e.className "advertisement" then 1 else 0) +
  (if classListContains e.className "GoogleActiveViewElement" then 1 else 0)

/-- `calculateAdConfidence(element, cosmeticSelectors)` translated signal
for signal from `src/adDetection.js` lines 515–672.  The JS float
comparisons `height > viewportHeight * 0.7` and `textDensity > 0.1`
become the exact integer comparisons `10 * height > 7 * viewportH` and
`10 * textLength > width * height`. -/
def calculateAdConfidence (cssMatches : Elem → String → Bool) (viewportH : Nat) (e : Elem)
    (cosmeticSelectors : List String) : Int :=
  let s1 : Int :=
    if hasAttr e "data-ad-client" || hasAttr e "data-google-av-ad" ||
        hasAttr e "data-google-av-element" then 6 else 0
  let s2 : Int := s1 + (if classListContains e.className "adsbygoogle" then 6 else 0)
  let s3 : Int := s2 +
    (if e.tagName == "IFRAME" && e.src != "" &&
        (strIncludes (lowerStr e.src) "googlesyndication" ||
         strIncludes (lowerStr e.src) "doubleclick") then 6 else 0)
  let s4 : Int := s3 +
    (if strIncludes e.id "gpt-ad" || strIncludes e.id "google_ads" ||
        strIncludes e.id "div-gpt-ad" || strIncludes e.id "gpt_unit" then 6 else 0)
  let s5 : Int := s4 + (if hasAttr e "data-google-query-id" then 5 else 0)
  let s6 : Int := s5 + (if classListContains e.className "GoogleActiveViewElement" then 7 else 0)
  let s7 : Int := s6 + (if sizeMatches e.width e.height then 3 else 0)
  let s8 : Int := s7 + (if matchesEasyListSelectors cssMatches e cosmeticSelectors then 2 else 0)
  let s9 : Int := s8 - (if isMainContent e then 5 else 0)
  let s10 : Int := s9 - (if 10 * e.height > 7 * viewportH then 3 else 0)
  let textLength := (trimStr e.textContent).length
  let area := e.width * e.height
  let s11 : Int := s10 -
    (if textLength > 200 || (area > 0 && 10 * textLength > area && textLength > 50) then 4 else 0)
  let tagName := lowerStr e.tagName
  let id := lowerStr e.id
  let className := lowerStr e.className
  let s12 : Int := s11 -
    (if cookieIndicators.any (fun ind => strIncludes id ind || strIncludes className ind)
      then 3 else 0)
  let s13 : Int := s12 -
    (if navIndicators.any (fun ind =>
        strIncludes tagName ind || strIncludes id ind || strIncludes className ind)
      then 3 else 0)
  let s14 : Int := s13 +
    (if e.childCount == 0 &&
        (hasAttr e "data-google-query-id" || hasAttr e "data-ad-client") then 2 else 0)
  let cnt := adIndicatorsCount e
  let s15 : Int := s14 + (if 2 ≤ cnt then (cnt : Int) else 0)
  max 0 s15

/-- Content-indicator token list of `isElementLikelyContent`
(`src/adDetection.js` lines 375–383, duplicates preserved). -/
def contentIndicators : List String :=
  ["title", "header", "footer", "nav", "navigation", "menu", "brand", "content", "text",
   "post", "article", "page", "site", "entry", "headline", "caption", "description",
   "author", "date", "meta", "comment", "share", "social", "breadcrumb", "search",
   "widget", "sidebar", "main", "container", "wrapper", "section", "article", "aside",
   "hgroup", "header", "footer", "time", "summary", "details",
   "blockquote", "cite", "figcaption", "figure", "main", "mark", "code",
   "pre", "kbd", "samp", "var", "data", "address"]

/-- Specific content-indicator token list (`src/adDetection.js` lines 386–394). -/
def specificContentIndicators : List String :=
  ["post-", "article-", "entry-", "blog-", "news-", "content-", "headline-",
   "author-", "date-", "time-", "comment-", "share-", "social-", "widget-",
   "sidebar-", "main-", "container-", "wrapper-", "section-", "navigation-",
   "menu-", "brand-", "header-", "footer-", "title-", "caption-", "description-",
   "breadcrumb-", "search-", "related-", "tag-", "category-", "archive-",
   "post-navigation", "comments-area", "author-box", "post-meta", "entry-header",
   "entry-content", "entry-footer"]

/-- Content vocabulary list (`src/adDetection.js` lines 444–450). -/
def contentKeywords : List String :=
  ["copyright", "about", "contact", "privacy", "terms", "policy",
   "home", "blog", "news", "article", "post", "category", "tag",
   "author", "published", "updated", "comments", "share", "related",
   "previous", "next", "archive", "search", "navigation", "menu",
   "subscribe", "newsletter", "rss", "feed", "permalink", "edit",
   "reply", "like", "dislike", "view", "views", "read", "reading",
   "time", "minutes", "words", "word", "ago", "by", "written"]

/-- Navigational link text list (`src/adDetection.js` lines 480–483). -/
def navLinkTexts : List String :=
  ["home", "about", "contact", "privacy", "terms", "search",
   "archive", "category", "tag", "login", "register", "profile",
   "settings", "help", "support", "sitemap", "rss", "newsletter",
   "previous", "next", "read more", "continue reading"]

/-- `isElementLikelyContent(element)` (`src/adDetection.js` lines
367–512): the chain of early returns becomes a disjunction. -/
def isElementLikelyContent (e : Elem) : Bool :=
  let tagName := lowerStr e.tagName
  let className := lowerStr e.className
  let id := lowerStr e.id
  let noAdClass := !(strIncludes className "ad") && !(strIncludes className "advertisement") &&
    !(strIncludes className "banner") && !(strIncludes className "sponsor")
  let noAdId := !(strIncludes id "ad") && !(strIncludes id "advertisement") &&
    !(strIncludes id "banner") && !(strIncludes id "sponsor")
  let textContent := trimStr e.textContent
  let textLower := lowerStr textContent
  let altLower := lowerStr e.alt
  let linkText := lowerStr (trimStr e.textContent)
  (contentIndicators.any (fun ind => strIncludes className ind && noAdClass)) ||
  (specificContentIndicators.any (fun ind => strIncludes className ind && noAdClass)) ||
  (contentIndicators.any (fun ind => strIncludes id ind && noAdId)) ||
  (specificContentIndicators.any (fun ind => strIncludes id ind && noAdId)) ||
  (textContent.length > 50 && contentKeywords.any (fun kw => strIncludes textLower kw)) ||
  (tagName == "img" &&
    (strIncludes altLower "logo" || strIncludes altLower "avatar" ||
     strIncludes altLower "photo" || strIncludes altLower "thumbnail" ||
     strIncludes altLower "featured" || strIncludes altLower "author" ||
     strIncludes altLower "profile" || strIncludes altLower "signature")) ||
  (tagName == "a" &&
    (navLinkTexts.any (fun t => strIncludes linkText t) ||
     (e.href != "" && !(strIncludes e.href "http") && !(strIncludes e.href "www") &&
      !(strIncludes e.href "track") && !(strIncludes e.href "click") &&
      !(strIncludes e.href "redirect")))) ||
  (strIncludes className "comment" || strIncludes className "reply" ||
   strIncludes className "message" || strIncludes className "user") ||
  (strIncludes className "share" || strIncludes className "social" ||
   strIncludes className "facebook" || strIncludes className "twitter" ||
   strIncludes className "linkedin" || strIncludes className "pinterest")

/-- Essential structural tags (`src/adDetection.js` line 333). -/
def essentialElements : List String :=
  ["body", "html", "head", "header", "footer", "nav", "main", "article", "section", "aside"]

/-- Common content tags (`src/adDetection.js` line 339). -/
def contentElements : List String :=
  ["h1", "h2", "h3", "h4", "h5", "h6", "p", "span", "div", "a", "img", "ul", "ol", "li",
   "article", "section"]

/-- `isElementLikelyAd(element)` (`src/adDetection.js` lines 269–364)
translated branch for branch.  Note that the first short-circuit tests
the LOWERCASED class string for the mixed-case literal
`'GoogleActiveViewElement'` (a check that can never fire), and that
both `calculateAdConfidence(element)` calls pass no selector list, i.e.
the empty default. -/
def isElementLikelyAd (cssMatches : Elem → String → Bool) (viewportH : Nat) (e : Elem) : Bool :=
  let tagName := lowerStr e.tagName
  let className := lowerStr e.className
  let id := lowerStr e.id
  if strIncludes className "GoogleActiveViewElement" || strIncludes className "adsbygoogle" ||
      strIncludes className "googlesyndication" || strIncludes className "doubleclick" then
    true
  else if e.tagName == "IFRAME" && e.src != "" &&
      (strIncludes e.src "googlesyndication" || strIncludes e.src "doubleclick" ||
       strIncludes e.src "googleadservices" || strIncludes e.src "googletagservices" ||
       strIncludes e.src "pagead" || strIncludes e.src "tpc.goog") then
    true
  else if hasAttr e "data-ad-client" || hasAttr e "data-google-av-ad" ||
      hasAttr e "data-google-av-element" || hasAttr e "data-ad-slot" ||
      hasAttr e "data-ad-format" || hasAttr e "data-google-query-id" then
    true
  else if strIncludes id "gpt-ad" || strIncludes id "google_ads" ||
      strIncludes id "div-gpt-ad" || strIncludes id "gpt_unit" then
    true
  else if strIncludes className "google-ads" || strIncludes className "advertisement" ||
      strIncludes className "ad-container" || strIncludes className "ad-placement" ||
      strIncludes className "ad-unit" || strIncludes className "ad-banner" ||
      strIncludes className "ad-box" || strIncludes className "pub_300x250" ||
      strIncludes className "pub_300x250m" || strIncludes className "pub_728x90" ||
      strIncludes className "text-ad" || strIncludes className "text-ads" ||
      strIncludes className "afs_ads" then
    decide (4 ≤ calculateAdConfidence cssMatches viewportH e [])
  else if essentialElements.contains tagName then
    false
  else if contentElements.contains tagName &&
      (strIncludes className "title" || strIncludes className "header" ||
       strIncludes className "footer" || strIncludes className "nav" ||
       strIncludes className "menu" || strIncludes className "brand" ||
       strIncludes className "content" || strIncludes className "text" ||
       strIncludes className "post" || strIncludes className "article" ||
       strIncludes className "page" || strIncludes className "site") &&
      !(strIncludes className "ad") && !(strIncludes className "advertisement") then
    false
  else if isElementLikelyContent e then
    false
  else
    decide (4 ≤ calculateAdConfidence cssMatches viewportH e [])

/-- In the content script the loaded cosmetic selector set is ambient
state (`cosmeticSelectors` in `src/unnamed/part_002`).  Callers such as
`detectAndOverlayAds` have it in scope, yet `isElementLikelyAd`'s body
never passes it on: both `calculateAdConfidence(element)` calls use the
empty default.  This wrapper makes the ambient set an explicit argument
which, exactly as in the source, the body does not consume. -/
def isElementLikelyAdWithLoaded (cssMatches : Elem → String → Bool) (viewportH : Nat)
    (loadedSelectors : List String) (e : Elem) : Bool :=
  isElementLikelyAd cssMatches viewportH e

/-- A `div.advertisement` sitting inside a `<main>` container with
substantial text: the −5 main-content and −4 text-heavy penalties drive
its confidence score to the floor. -/
def contentPenalisedAdvert : Elem :=
  { tagName := "DIV", id := "", className := "advertisement", attrs := [], src := "",
    width := 500, height := 400, textContent := ⟨List.replicate 250 'x'⟩, childCount := 2,
    alt := "", href := "", ancestors := [⟨"MAIN", "", ""⟩, ⟨"BODY", "", ""⟩] }

/-- A plain AdSense `<ins class="adsbygoogle">` of standard 300×250 size. -/
def adsByGoogleElem : Elem :=
  { tagName := "INS", id := "", className := "adsbygoogle", attrs := [], src := "",
    width := 300, height := 250, textContent := "", childCount := 0,
    alt := "", href := "", ancestors := [] }

/-!
## Cosmetic filter parsing (`src/adDetection.js` lines 56–128)
-/

/-- JS `s.substring(n)` / `s.drop n`. -/
def dropStr (s : String) (n : Nat) : String := ⟨s.toList.drop n⟩

/-- The domain loop of `parseCosmeticFilters` (lines 84–102): `acc` is
the running `shouldApply`; a matching `~`-exception or a `@@` entry
returns false immediately (the `break`). -/
def domainApplies (host : String) : List String → Bool → Bool
  | [], acc => acc
  | d :: rest, acc =>
    if strStarts d "~" then
      (if host != "" && strIncludes host (dropStr d 1) then false
       else domainApplies host rest acc)
    else if strStarts d "@@" then false
    else
      domainApplies host rest
        (acc || (host != "" &&
          (host == d || strEnds host ("." ++ d) || strEnds host (d ++ "."))))

/-- The per-line body of `parseCosmeticFilters`' loop: the pair of
contributions to the (global `selectors`, `domainSpecificSelectors`)
lists.  A line containing `#@#` but neither `##` nor `#?#` falls through
both inner blocks and contributes nothing — the source has no handling
for exception rules beyond mentioning them in the outer guard. -/
def processLine (host line : String) : List String × List String :=
  let t := trimStr line
  if t == "" || strStarts t "!" || strStarts t "[Adblock" then ([], [])
  else if strIncludes t "##" || strIncludes t "#?#" || strIncludes t "#@#" then
    let c1 :=
      if strIncludes t "##" then
        let parts := strSplit t "##"
        if 2 ≤ parts.length then
          let domains := parts.headD ""
          let selector := String.intercalate "##" (parts.drop 1)
          if domains != "" then
            (if domainApplies host (strSplit domains ",") false
             then (([] : List String), [trimStr selector])
             else (([] : List String), ([] : List String)))
          else ([trimStr selector], ([] : List String))
        else (([] : List String), ([] : List String))
      else (([] : List String), ([] : List String))
    let c2 :=
      if strIncludes t "#?#" then
        let parts := strSplit t "#?#"
        if 2 ≤ parts.length then
          ([trimStr (String.intercalate "#?#" (parts.drop 1))], ([] : List String))
        else (([] : List String), ([] : List String))
      else (([] : List String), ([] : List String))
    (c1.1 ++ c2.1, c1.2 ++ c2.2)
  else ([], [])

/-- The loop of `parseCosmeticFilters` over the split lines, returning
`[...selectors, ...domainSpecificSelectors]`. -/
def parseLines (host : String) (lines : List String) : List String :=
  let acc := lines.foldl
    (fun acc l =>
      let c := processLine host l
      (acc.1 ++ c.1, acc.2 ++ c.2))
    (([] : List String), ([] : List String))
  acc.1 ++ acc.2

/-- `parseCosmeticFilters(filterText, currentHostname)`. -/
def parseCosmeticFilters (filterText currentHostname : String) : List String :=
  parseLines currentHostname (strSplit filterText "\n")

/-!
## Multi-element session machine (claim C6)

The `elementTracker` map of variant A keyed by element identity
(`Nat` ids), together with the session-wide `hasScrolledToCountdown`
flag and `detectedCountdownElement` reference that
`checkForNumericChange` reads and writes.
-/

def lookupTracker (m : List (Nat × Tracker)) (e : Nat) : Option Tracker :=
  (m.find? (fun p => p.1 == e)).map (fun p => p.2)

def insertTracker (m : List (Nat × Tracker)) (e : Nat) (t : Tracker) : List (Nat × Tracker) :=
  (e, t) :: m.filter (fun p => p.1 != e)

def eraseTracker (m : List (Nat × Tracker)) (e : Nat) : List (Nat × Tracker) :=
  m.filter (fun p => p.1 != e)

structure MState where
  elementTracker : List (Nat × Tracker)
  hasScrolledToCountdown : Bool
  detectedCountdownElement : Option Nat
  deriving DecidableEq, Repr

def initM : MState := ⟨[], false, none⟩

/-- Variant A's `checkForNumericChange` for one event
`(element, now, extracted value)` against the shared session state. -/
def stepM (minD maxD : Nat) (s : MState) (ev : Nat × Nat × Option Nat) : MState :=
  let e := ev.1
  let now := ev.2.1
  match ev.2.2 with
  | none =>
    if (lookupTracker s.elementTracker e).isSome then
      ⟨eraseTracker s.elementTracker e, s.hasScrolledToCountdown, s.detectedCountdownElement⟩
    else s
  | some n =>
    if n < minD ∨ maxD < n then
      if (lookupTracker s.elementTracker e).isSome then
        ⟨eraseTracker s.elementTracker e, s.hasScrolledToCountdown,
          s.detectedCountdownElement⟩
      else s
    else
      match lookupTracker s.elementTracker e with
      | some t =>
        if n < t.lastValue then
          let cd := t.consecutiveDecreases + 1
          if 2 ≤ cd ∧ s.hasScrolledToCountdown = false then
            -- handleConfirmedCountdown for this element
            ⟨insertTracker s.elementTracker e ⟨n, now, cd⟩, true, some e⟩
          else
            ⟨insertTracker s.elementTracker e ⟨n, now, cd⟩, s.hasScrolledToCountdown,
              s.detectedCountdownElement⟩
        else if t.lastValue < n then
          ⟨insertTracker s.elementTracker e ⟨n, now, 0⟩, s.hasScrolledToCountdown,
            s.detectedCountdownElement⟩
        else
          ⟨insertTracker s.elementTracker e ⟨n, now, t.consecutiveDecreases⟩,
            s.hasScrolledToCountdown, s.detectedCountdownElement⟩
      | none =>
        ⟨insertTracker s.elementTracker e ⟨n, now, 0⟩, s.hasScrolledToCountdown,
          s.detectedCountdownElement⟩

def runM (minD maxD : Nat) (evs : List (Nat × Nat × Option Nat)) : MState :=
  evs.foldl (stepM minD maxD) initM

/-!
## Overlay lifecycle (`src/adDetection.js` lines 932–1075, 1196–1219)

Anchors and overlays are identified by `Nat` ids.  `covered` is the
`coveredElements` set, `overlays` the `overlayMap`, `marked` the set of
anchors carrying the `data-ad-click-guard-covered` attribute, and
`domOverlays` the overlay nodes currently appended to the document.
Fresh overlay nodes come from the `nextOverlayId` counter
(`document.createElement` always succeeds); the fallible step is the
DOM insertion, abstracted by the `insertOk` flag — when it throws, the
catch block deletes the anchor from `coveredElements` and removes the
marker attribute, and `null` is returned instead of the exception
propagating. -/

structure OElem where
  id : Nat
  tagName : String
  width : Nat
  height : Nat
  deriving DecidableEq, Repr

structure OverlayState where
  covered : List Nat
  overlays : List (Nat × Nat)
  marked : List Nat
  domOverlays : List Nat
  nextOverlayId : Nat
  deriving DecidableEq, Repr

def lookupOverlay (l : List (Nat × Nat)) (e : Nat) : Option Nat :=
  (l.find? (fun p => p.1 == e)).map (fun p => p.2)

/-- `createAdOverlay(element)` translated check for check.  The JS float
comparisons `width > viewportWidth * 0.9` and
`height > viewportHeight * 0.6` become `10 * width > 9 * vw` and
`10 * height > 6 * vh`. -/
def createAdOverlay (st : OverlayState) (e : OElem) (vw vh : Nat) (insertOk : Bool) :
    Option Nat × OverlayState :=
  if st.covered.contains e.id then
    -- duplicate prevention: return the existing handle (or null)
    (lookupOverlay st.overlays e.id, st)
  else if lowerStr e.tagName == "body" || lowerStr e.tagName == "html" then
    (none, st)
  else if 10 * e.width > 9 * vw ∨ 10 * e.height > 6 * vh ∨ e.width < 2 ∨ e.height < 2 then
    (none, st)
  else
    let oid := st.nextOverlayId
    let covered1 := e.id :: st.covered
    let marked1 := e.id :: st.marked
    if insertOk then
      (some oid,
        ⟨covered1, (e.id, oid) :: st.overlays, marked1, oid :: st.domOverlays, oid + 1⟩)
    else
      -- catch: coveredElements.delete(element); removeAttribute(...)
      (none, ⟨covered1.erase e.id, st.overlays, marked1.erase e.id, st.domOverlays, oid + 1⟩)

/-- `removeAdOverlay(element, overlay)`: cancel timers/listeners, remove
the overlay node, drop the map entry, the covered membership and the
marker attribute. -/
def removeAdOverlay (st : OverlayState) (e o : Nat) : OverlayState :=
  ⟨st.covered.erase e, st.overlays.filter (fun p => !(p.1 == e)), st.marked.erase e,
    st.domOverlays.erase o, st.nextOverlayId⟩

/-- `removeAllOverlays()`: only anchors still contained in the document
(`doc`) are collected for removal; the covered set is then cleared
unconditionally, leaving the overlay nodes of departed anchors in the
document. -/
def removeAllOverlays (doc : List Nat) (st : OverlayState) : OverlayState :=
  let elementsToRemove := st.covered.filter (fun e => doc.contains e)
  let st1 := elementsToRemove.foldl
    (fun acc e =>
      match lookupOverlay acc.overlays e with
      | some o => removeAdOverlay acc e o
      | none => acc)
    st
  ⟨[], st1.overlays, st1.marked, st1.domOverlays, st1.nextOverlayId⟩

def navAnchor : OElem := ⟨0, "NAV", 300, 250⟩

def emptyOverlayState : OverlayState := ⟨[], [], [], [], 0⟩

/-!
## Disable lifecycle (`src/countdownWatcher.js` lines 709–731, 780–816)

State touched by `setEnabled(false)`.  `monitorIntervals` is the set of
elements whose `countdownMonitorInterval` (the 500 ms poll installed by
`startActiveMonitoring`) is live; `focusClasses` / `countdownOverlays`
the elements carrying the focus effect class / a countdown overlay.
-/

structure WatcherLife where
  elementTracker : List (Nat × Tracker)
  debounceTimers : List Nat
  monitorIntervals : List Nat
  focusClasses : List Nat
  countdownOverlays : List Nat
  hasScrolledToCountdown : Bool
  detectedCountdownElement : Option Nat
  observing : Bool
  deriving DecidableEq, Repr

/-- `startActiveMonitoring(element)`: clear any existing interval for
the element, then install a fresh one. -/
def startActiveMonitoring (st : WatcherLife) (e : Nat) : WatcherLife :=
  ⟨st.elementTracker, st.debounceTimers, e :: st.monitorIntervals.erase e,
    st.focusClasses, st.countdownOverlays, st.hasScrolledToCountdown,
    st.detectedCountdownElement, st.observing⟩

/-- `setEnabled(false)` translated statement for statement: disconnect
the observer, remove focus effects and countdown overlays of TRACKED
elements, clear the tracker and all debounce timers, reset the session
flags.  The per-element `countdownMonitorInterval`s are never touched
(only the separate `disconnect()` method clears them). -/
def setEnabledFalse (st : WatcherLife) : WatcherLife :=
  let trackedKeys := st.elementTracker.map (fun p => p.1)
  ⟨[], [], st.monitorIntervals,
    st.focusClasses.filter (fun e => !(trackedKeys.contains e)),
    st.countdownOverlays.filter (fun e => !(trackedKeys.contains e)),
    false, none, false⟩

/-- A watcher with one tracked element whose poll interval is live and a
pending debounce timer, plus (on the ad side) one covered anchor that
has already left the document. -/
def liveWatcher : WatcherLife :=
  ⟨[(0, ⟨30, 0, 1⟩)], [0], [0], [0], [0], false, none, true⟩

/-!
## Claim theorems and supporting lemmas
-/

lemma decreaseAt_cons_succ (x : Nat) (vs : List Nat) (k : Nat) :
    decreaseAt (x :: vs) (k + 1) ↔ decreaseAt vs k := by
  simp only [decreaseAt, List.getD_cons_succ, List.length_cons]
  constructor <;> rintro ⟨h1, h2⟩ <;> exact ⟨by omega, h2⟩

lemma increaseAt_cons_succ (x : Nat) (vs : List Nat) (k : Nat) :
    increaseAt (x :: vs) (k + 1) ↔ increaseAt vs k := by
  simp only [increaseAt, List.getD_cons_succ, List.length_cons]
  constructor <;> rintro ⟨h1, h2⟩ <;> exact ⟨by omega, h2⟩

lemma decreaseAt_cons_zero (x v : Nat) (vs : List Nat) :
    decreaseAt (x :: v :: vs) 0 ↔ v < x := by
  simp only [decreaseAt, List.getD_cons_succ, List.getD_cons_zero, List.length_cons]
  constructor
  · rintro ⟨_, h⟩; exact h
  · intro h; exact ⟨by omega, h⟩

lemma increaseAt_cons_zero (x v : Nat) (vs : List Nat) :
    increaseAt (x :: v :: vs) 0 ↔ x < v := by
  simp only [increaseAt, List.getD_cons_succ, List.getD_cons_zero, List.length_cons]
  constructor
  · rintro ⟨_, h⟩; exact h
  · intro h; exact ⟨by omega, h⟩

lemma confirms_shift (x v : Nat) (vs : List Nat)
    (h : confirmsTwoDecreases (v :: vs)) : confirmsTwoDecreases (x :: v :: vs) := by
  obtain ⟨i, j, hij, di, dj, hfree⟩ := h
  refine ⟨i + 1, j + 1, by omega, ?_, ?_, ?_⟩
  · exact (decreaseAt_cons_succ x (v :: vs) i).mpr di
  · exact (decreaseAt_cons_succ x (v :: vs) j).mpr dj
  · intro k hk1 hk2
    obtain ⟨k', rfl⟩ : ∃ k', k = k' + 1 := ⟨k - 1, by omega⟩
    intro hinc
    exact hfree k' (by omega) (by omega) ((increaseAt_cons_succ x (v :: vs) k').mp hinc)

lemma confirms_of_cons (x v : Nat) (vs : List Nat)
    (h : confirmsTwoDecreases (x :: v :: vs)) :
    confirmsTwoDecreases (v :: vs) ∨
      (v < x ∧ decreaseBeforeIncrease (v :: vs)) := by
  obtain ⟨i, j, hij, di, dj, hfree⟩ := h
  cases i with
  | zero =>
    right
    refine ⟨(decreaseAt_cons_zero x v vs).mp di, ?_⟩
    obtain ⟨j', rfl⟩ : ∃ j', j = j' + 1 := ⟨j - 1, by omega⟩
    refine ⟨j', (decreaseAt_cons_succ x (v :: vs) j').mp dj, ?_⟩
    intro k hk hinc
    exact hfree (k + 1) (by omega) (by omega) ((increaseAt_cons_succ x (v :: vs) k).mpr hinc)
  | succ i' =>
    left
    obtain ⟨j', rfl⟩ : ∃ j', j = j' + 1 := ⟨j - 1, by omega⟩
    refine ⟨i', j', by omega, (decreaseAt_cons_succ x (v :: vs) i').mp di,
      (decreaseAt_cons_succ x (v :: vs) j').mp dj, ?_⟩
    intro k hk1 hk2 hinc
    exact hfree (k + 1) (by omega) (by omega) ((increaseAt_cons_succ x (v :: vs) k).mpr hinc)

lemma confirms_of_dbi (x v : Nat) (vs : List Nat) (hdec : v < x)
    (h : decreaseBeforeIncrease (v :: vs)) : confirmsTwoDecreases (x :: v :: vs) := by
  obtain ⟨j, dj, hfree⟩ := h
  refine ⟨0, j + 1, by omega, (decreaseAt_cons_zero x v vs).mpr hdec,
    (decreaseAt_cons_succ x (v :: vs) j).mpr dj, ?_⟩
  intro k hk1 hk2
  obtain ⟨k', rfl⟩ : ∃ k', k = k' + 1 := ⟨k - 1, by omega⟩
  intro hinc
  exact hfree k' (by omega) ((increaseAt_cons_succ x (v :: vs) k').mp hinc)

lemma dbi_shift_plateau (x v : Nat) (vs : List Nat) (heq : v = x) :
    decreaseBeforeIncrease (x :: v :: vs) ↔ decreaseBeforeIncrease (v :: vs) := by
  subst heq
  constructor
  · rintro ⟨j, dj, hfree⟩
    cases j with
    | zero =>
      exact absurd ((decreaseAt_cons_zero v v vs).mp dj) (by omega)
    | succ j' =>
      refine ⟨j', (decreaseAt_cons_succ v (v :: vs) j').mp dj, ?_⟩
      intro k hk hinc
      exact hfree (k + 1) (by omega) ((increaseAt_cons_succ v (v :: vs) k).mpr hinc)
  · rintro ⟨j, dj, hfree⟩
    refine ⟨j + 1, (decreaseAt_cons_succ v (v :: vs) j).mpr dj, ?_⟩
    intro k hk
    cases k with
    | zero =>
      intro hinc
      exact absurd ((increaseAt_cons_zero v v vs).mp hinc) (by omega)
    | succ k' =>
      intro hinc
      exact hfree k' (by omega) ((increaseAt_cons_succ v (v :: vs) k').mp hinc)

lemma confirms_shift_plateau (x v : Nat) (vs : List Nat) (heq : v = x) :
    confirmsTwoDecreases (x :: v :: vs) ↔ confirmsTwoDecreases (v :: vs) := by
  constructor
  · intro h
    rcases confirms_of_cons x v vs h with h' | ⟨hlt, _⟩
    · exact h'
    · omega
  · exact confirms_shift x v vs

lemma confirms_shift_inc (x v : Nat) (vs : List Nat) (hlt : x < v) :
    confirmsTwoDecreases (x :: v :: vs) ↔ confirmsTwoDecreases (v :: vs) := by
  constructor
  · intro h
    rcases confirms_of_cons x v vs h with h' | ⟨hlt', _⟩
    · exact h'
    · omega
  · exact confirms_shift x v vs

lemma not_dbi_inc (x v : Nat) (vs : List Nat) (hlt : x < v) :
    ¬ decreaseBeforeIncrease (x :: v :: vs) := by
  rintro ⟨j, dj, hfree⟩
  cases j with
  | zero =>
    have := (decreaseAt_cons_zero x v vs).mp dj
    omega
  | succ j' =>
    exact hfree 0 (by omega) ((increaseAt_cons_zero x v vs).mpr hlt)

lemma no_transitions_singleton (x : Nat) :
    ¬ confirmsTwoDecreases [x] ∧ ¬ decreaseBeforeIncrease [x] := by
  constructor
  · rintro ⟨i, j, _, _, dj, _⟩
    have := dj.1
    simp [List.length] at this
  · rintro ⟨j, dj, _⟩
    have := dj.1
    simp [List.length] at this

lemma reach2_iff (vs : List Nat) : ∀ (lv cd : Nat),
    reach2 lv cd vs = true ↔
      (confirmsTwoDecreases (lv :: vs) ∨ (1 ≤ cd ∧ decreaseBeforeIncrease (lv :: vs))) := by
  induction vs with
  | nil =>
    intro lv cd
    simp only [reach2]
    constructor
    · intro h; cases h
    · rintro (h | ⟨_, h⟩)
      · exact absurd h (no_transitions_singleton lv).1
      · exact absurd h (no_transitions_singleton lv).2
  | cons v rest ih =>
    intro lv cd
    by_cases hlt : v < lv
    · by_cases hcd : 1 ≤ cd
      · -- second decrease found immediately
        have hL : reach2 lv cd (v :: rest) = true := by
          simp only [reach2, if_pos hlt]
          have : 2 ≤ cd + 1 := by omega
          simp [this]
        simp only [hL, true_iff]
        right
        refine ⟨hcd, 0, (decreaseAt_cons_zero lv v rest).mpr hlt, ?_⟩
        intro k hk
        omega
      · -- cd = 0 : first decrease
        have hcd0 : cd = 0 := by omega
        subst hcd0
        have hL : reach2 lv 0 (v :: rest) = reach2 v 1 rest := by
          simp [reach2, if_pos hlt]
        rw [hL, ih v 1]
        constructor
        · rintro (h | ⟨_, h⟩)
          · exact Or.inl (confirms_shift lv v rest h)
          · exact Or.inl (confirms_of_dbi lv v rest hlt h)
        · rintro (h | ⟨h1, _⟩)
          · rcases confirms_of_cons lv v rest h with h' | ⟨_, hdbi⟩
            · exact Or.inl h'
            · exact Or.inr ⟨by omega, hdbi⟩
          · omega
    · by_cases hgt : lv < v
      · -- increase: counter reset
        have hL : reach2 lv cd (v :: rest) = reach2 v 0 rest := by
          simp [reach2, if_neg hlt, if_pos hgt]
        rw [hL, ih v 0]
        constructor
        · rintro (h | ⟨h1, _⟩)
          · exact Or.inl ((confirms_shift_inc lv v rest hgt).mpr h)
          · omega
        · rintro (h | ⟨_, hdbi⟩)
          · exact Or.inl ((confirms_shift_inc lv v rest hgt).mp h)
          · exact absurd hdbi (not_dbi_inc lv v rest hgt)
      · -- plateau
        have heq : v = lv := by omega
        have hL : reach2 lv cd (v :: rest) = reach2 v cd rest := by
          simp [reach2, if_neg hlt, if_neg hgt]
        rw [hL, ih v cd]
        rw [confirms_shift_plateau lv v rest heq, dbi_shift_plateau lv v rest heq]

lemma runA_eq_runFromA (minD maxD : Nat) (evs : List (Nat × Option Nat)) :
    runA minD maxD evs = runFromA minD maxD initA evs := rfl

lemma runFromA_cons (minD maxD : Nat) (s : AState) (p : Nat × Option Nat)
    (evs : List (Nat × Option Nat)) :
    runFromA minD maxD s (p :: evs) = runFromA minD maxD (stepA minD maxD p.1 s p.2) evs := rfl

lemma runB_eq_runFromB (minD maxD : Nat) (evs : List (Nat × Option Nat)) :
    runB minD maxD evs = runFromB minD maxD initB evs := rfl

lemma runFromB_cons (minD maxD : Nat) (s : BState) (p : Nat × Option Nat)
    (evs : List (Nat × Option Nat)) :
    runFromB minD maxD s (p :: evs) = runFromB minD maxD (stepB minD maxD p.1 s p.2) evs := rfl

lemma valuesOf_cons_some (t n : Nat) (evs : List (Nat × Option Nat)) :
    valuesOf ((t, some n) :: evs) = n :: valuesOf evs := by simp [valuesOf]

lemma not_confirms_nil : ¬ confirmsTwoDecreases ([] : List Nat) := by
  rintro ⟨i, j, _, _, dj, _⟩
  have := dj.1
  simp [List.length] at this

/-- While an element is tracked and every later observation is a valid
in-range value, the session ends detected exactly when it was already
detected, or was still unconfirmed and the decrease counter reaches two. -/
lemma stepsA_detected :
    ∀ (evs : List (Nat × Option Nat)) (minD maxD lv tm cd : Nat) (hs dt fa : Bool),
    (∀ p ∈ evs, ∃ n, p.2 = some n ∧ minD ≤ n ∧ n ≤ maxD) →
    (runFromA minD maxD ⟨some ⟨lv, tm, cd⟩, hs, dt, fa⟩ evs).detected
      = (dt || (!hs && reach2 lv cd (valuesOf evs))) := by
  intro evs
  induction evs with
  | nil =>
    intro minD maxD lv tm cd hs dt fa _
    simp [runFromA, valuesOf, reach2]
  | cons p rest ih =>
    intro minD maxD lv tm cd hs dt fa h
    obtain ⟨n, hn, hmin, hmax⟩ := h p (List.mem_cons_self p rest)
    have hrest : ∀ q ∈ rest, ∃ n, q.2 = some n ∧ minD ≤ n ∧ n ≤ maxD :=
      fun q hq => h q (List.mem_cons_of_mem p hq)
    obtain ⟨t0, v0⟩ := p
    simp only at hn
    subst hn
    rw [runFromA_cons, valuesOf_cons_some]
    have hnr : ¬(n < minD ∨ maxD < n) := by omega
    rcases Nat.lt_trichotomy n lv with hlt | heq | hgt
    · by_cases hconf : 2 ≤ cd + 1 ∧ hs = false
      · have hstep : stepA minD maxD t0 ⟨some ⟨lv, tm, cd⟩, hs, dt, fa⟩ (some n)
            = ⟨some ⟨n, t0, cd + 1⟩, true, true, true⟩ := by
          simp only [stepA, if_neg hnr, if_pos hlt, if_pos hconf]
        rw [hstep, ih _ _ _ _ _ _ _ _ hrest]
        simp [reach2, hlt, hconf.1, hconf.2]
      · have hstep : stepA minD maxD t0 ⟨some ⟨lv, tm, cd⟩, hs, dt, fa⟩ (some n)
            = ⟨some ⟨n, t0, cd + 1⟩, hs, dt, fa⟩ := by
          simp only [stepA, if_neg hnr, if_pos hlt, if_neg hconf]
        rw [hstep, ih _ _ _ _ _ _ _ _ hrest]
        by_cases hhs : hs = true
        · simp [hhs]
        · have hs0 : hs = false := by revert hhs; cases hs <;> simp
          have hcd : ¬ 2 ≤ cd + 1 := fun h2 => hconf ⟨h2, hs0⟩
          simp [reach2, hlt, hcd, hs0]
    · have hstep : stepA minD maxD t0 ⟨some ⟨lv, tm, cd⟩, hs, dt, fa⟩ (some n)
          = ⟨some ⟨n, t0, cd⟩, hs, dt, fa⟩ := by
        simp only [stepA, if_neg hnr, if_neg (by omega : ¬ n < lv),
          if_neg (by omega : ¬ lv < n)]
      rw [hstep, ih _ _ _ _ _ _ _ _ hrest]
      have : reach2 lv cd (n :: valuesOf rest) = reach2 n cd (valuesOf rest) := by
        simp [reach2, heq]
      rw [this]
    · have hstep : stepA minD maxD t0 ⟨some ⟨lv, tm, cd⟩, hs, dt, fa⟩ (some n)
          = ⟨some ⟨n, t0, 0⟩, hs, dt, fa⟩ := by
        simp only [stepA, if_neg hnr, if_neg (by omega : ¬ n < lv), if_pos hgt]
      rw [hstep, ih _ _ _ _ _ _ _ _ hrest]
      have hnlt : ¬ n < lv := by omega
      have : reach2 lv cd (n :: valuesOf rest) = reach2 n 0 (valuesOf rest) := by
        simp [reach2, hgt, hnlt]
      rw [this]

/-- Every value-carrying step of variant B preserves an applied focus
effect: only the null branch (countdown completion) removes it. -/
lemma stepB_keeps_focus (minD maxD now : Nat) (s : BState) (n : Nat)
    (h : s.focusApplied = true) :
    (stepB minD maxD now s (some n)).focusApplied = true := by
  simp only [stepB]
  split
  · exact h
  · cases hl : s.tracker with
    | none => exact h
    | some t =>
      dsimp only
      split_ifs <;> first | rfl | exact h

lemma runFromB_keeps_focus :
    ∀ (evs : List (Nat × Option Nat)) (minD maxD : Nat) (s : BState),
    (∀ p ∈ evs, ∃ n : Nat, p.2 = some n) → s.focusApplied = true →
    (runFromB minD maxD s evs).focusApplied = true := by
  intro evs
  induction evs with
  | nil => intro minD maxD s _ h; exact h
  | cons p rest ih =>
    intro minD maxD s hall h
    obtain ⟨n, hn⟩ := hall p (List.mem_cons_self p rest)
    have hall' : ∀ q ∈ rest, ∃ n : Nat, q.2 = some n :=
      fun q hq => hall q (List.mem_cons_of_mem p hq)
    obtain ⟨t0, v0⟩ := p
    simp only at hn
    subst hn
    rw [runFromB_cons]
    exact ih minD maxD _ hall' (stepB_keeps_focus minD maxD t0 s n h)

/-- Variant B analogue of `stepsA_detected`: the counter logic is
identical, but a confirmation immediately runs `stopCountdownDetection`,
which clears the tracker and resets `hasScrolledToCountdown` and
`detectedCountdownElement`; the applied focus effect is the state that
persists, and in every reachable session state the two flags are false
(so the lemma fixes them at false). -/
lemma stepsB_focus :
    ∀ (evs : List (Nat × Option Nat)) (minD maxD lv tm cd : Nat) (fa obs : Bool),
    (∀ p ∈ evs, ∃ n, p.2 = some n ∧ minD ≤ n ∧ n ≤ maxD ∧ 1 ≤ n ∧ n ≤ 120) →
    (runFromB minD maxD ⟨some ⟨lv, tm, cd⟩, false, false, fa, obs⟩ evs).focusApplied
      = (fa || reach2 lv cd (valuesOf evs)) := by
  intro evs
  induction evs with
  | nil =>
    intro minD maxD lv tm cd fa obs _
    simp [runFromB, valuesOf, reach2]
  | cons p rest ih =>
    intro minD maxD lv tm cd fa obs h
    obtain ⟨n, hn, hmin, hmax, h1, h120⟩ := h p (List.mem_cons_self p rest)
    have hrest : ∀ q ∈ rest, ∃ n, q.2 = some n ∧ minD ≤ n ∧ n ≤ maxD ∧ 1 ≤ n ∧ n ≤ 120 :=
      fun q hq => h q (List.mem_cons_of_mem p hq)
    obtain ⟨t0, v0⟩ := p
    simp only at hn
    subst hn
    rw [runFromB_cons, valuesOf_cons_some]
    have hnr : ¬(n < 1 ∨ 120 < n) := by omega
    rcases Nat.lt_trichotomy n lv with hlt | heq | hgt
    · by_cases hcd2 : 2 ≤ cd + 1
      · -- confirmation fires; stopCountdownDetection resets the session
        have hstep : stepB minD maxD t0 ⟨some ⟨lv, tm, cd⟩, false, false, fa, obs⟩ (some n)
            = ⟨none, false, false, true, false⟩ := by
          simp only [stepB, if_neg hnr, if_pos hlt, if_pos hcd2,
            if_pos (⟨hmin, hmax⟩ : minD ≤ n ∧ n ≤ maxD)]
          simp
        rw [hstep]
        rw [runFromB_keeps_focus rest minD maxD ⟨none, false, false, true, false⟩
          (fun q hq => ⟨(hrest q hq).choose, (hrest q hq).choose_spec.1⟩) rfl]
        simp [reach2, hlt, hcd2]
      · have hstep : stepB minD maxD t0 ⟨some ⟨lv, tm, cd⟩, false, false, fa, obs⟩ (some n)
            = ⟨some ⟨n, t0, cd + 1⟩, false, false, fa, obs⟩ := by
          simp only [stepB, if_neg hnr, if_pos hlt, if_neg hcd2]
        rw [hstep, ih _ _ _ _ _ _ _ hrest]
        simp [reach2, hlt, hcd2]
    · have hstep : stepB minD maxD t0 ⟨some ⟨lv, tm, cd⟩, false, false, fa, obs⟩ (some n)
          = ⟨some ⟨n, t0, cd⟩, false, false, fa, obs⟩ := by
        simp only [stepB, if_neg hnr, if_neg (by omega : ¬ n < lv),
          if_neg (by omega : ¬ lv < n)]
      rw [hstep, ih _ _ _ _ _ _ _ hrest]
      have : reach2 lv cd (n :: valuesOf rest) = reach2 n cd (valuesOf rest) := by
        simp [reach2, heq]
      rw [this]
    · have hstep : stepB minD maxD t0 ⟨some ⟨lv, tm, cd⟩, false, false, fa, obs⟩ (some n)
          = ⟨some ⟨n, t0, 0⟩, false, false, fa, obs⟩ := by
        simp only [stepB, if_neg hnr, if_neg (by omega : ¬ n < lv), if_pos hgt]
      rw [hstep, ih _ _ _ _ _ _ _ hrest]
      have hnlt : ¬ n < lv := by omega
      have : reach2 lv cd (n :: valuesOf rest) = reach2 n 0 (valuesOf rest) := by
        simp [reach2, hgt, hnlt]
      rw [this]

/-- C1.  For every tracked element and every sequence of extracted
in-range values fed to `checkForNumericChange` (variant A of
`src/countdownWatcher.js` and variant B of `src/unnamed/part_000`,
values paired with observation times), the element transitions to
confirmed if and only if the sequence contains two strictly decreasing
transitions of the tracked `lastValue` with no intervening increase
(which would reset the `consecutiveDecreases` counter) between them.
For variant A the persistent witness of confirmation is the stored
`detectedCountdownElement`; in variant B `stopCountdownDetection`
immediately clears the tracker and resets the session flags after
confirming, so the persistent witness is the applied focus effect.
For variant B, "in range" additionally means within its hard `[1,120]`
acceptance band, which holds whenever `[minD, maxD] ⊆ [1,120]`. -/
theorem c1_confirmation_iff_two_decreases :
    (∀ (minD maxD : Nat) (evs : List (Nat × Option Nat)),
      (∀ p ∈ evs, ∃ n, p.2 = some n ∧ minD ≤ n ∧ n ≤ maxD) →
      ((runA minD maxD evs).detected = true ↔ confirmsTwoDecreases (valuesOf evs)))
    ∧
    (∀ (minD maxD : Nat) (evs : List (Nat × Option Nat)),
      (∀ p ∈ evs, ∃ n, p.2 = some n ∧ minD ≤ n ∧ n ≤ maxD ∧ 1 ≤ n ∧ n ≤ 120) →
      ((runB minD maxD evs).focusApplied = true ↔ confirmsTwoDecreases (valuesOf evs))) := by
  constructor
  · intro minD maxD evs h
    cases evs with
    | nil =>
      have : (runA minD maxD []).detected = false := rfl
      rw [this]
      simp only [valuesOf, List.filterMap_nil]
      constructor
      · intro habs; cases habs
      · intro habs; exact absurd habs not_confirms_nil
    | cons p rest =>
      obtain ⟨n, hn, hmin, hmax⟩ := h p (List.mem_cons_self p rest)
      have hrest : ∀ q ∈ rest, ∃ n, q.2 = some n ∧ minD ≤ n ∧ n ≤ maxD :=
        fun q hq => h q (List.mem_cons_of_mem p hq)
      obtain ⟨t0, v0⟩ := p
      simp only at hn
      subst hn
      have hstep0 : stepA minD maxD t0 initA (some n)
          = ⟨some ⟨n, t0, 0⟩, false, false, false⟩ := by
        simp only [stepA, initA, if_neg (show ¬(n < minD ∨ maxD < n) by omega)]
      rw [runA_eq_runFromA, runFromA_cons, hstep0,
        stepsA_detected rest minD maxD n t0 0 false false false hrest,
        valuesOf_cons_some]
      simp only [Bool.false_or, Bool.not_false, Bool.true_and]
      rw [reach2_iff (valuesOf rest) n 0]
      simp
  · intro minD maxD evs h
    cases evs with
    | nil =>
      have : (runB minD maxD []).focusApplied = false := rfl
      rw [this]
      simp only [valuesOf, List.filterMap_nil]
      constructor
      · intro habs; cases habs
      · intro habs; exact absurd habs not_confirms_nil
    | cons p rest =>
      obtain ⟨n, hn, hmin, hmax, h1, h120⟩ := h p (List.mem_cons_self p rest)
      have hrest : ∀ q ∈ rest, ∃ n, q.2 = some n ∧ minD ≤ n ∧ n ≤ maxD ∧ 1 ≤ n ∧ n ≤ 120 :=
        fun q hq => h q (List.mem_cons_of_mem p hq)
      obtain ⟨t0, v0⟩ := p
      simp only at hn
      subst hn
      have hstep0 : stepB minD maxD t0 initB (some n)
          = ⟨some ⟨n, t0, 0⟩, false, false, false, true⟩ := by
        simp only [stepB, initB, if_neg (show ¬(n < 1 ∨ 120 < n) by omega)]
      rw [runB_eq_runFromB, runFromB_cons, hstep0,
        stepsB_focus rest minD maxD n t0 0 false true hrest,
        valuesOf_cons_some]
      simp only [Bool.false_or]
      rw [reach2_iff (valuesOf rest) n 0]
      simp

/-- Witness for C1: the sequence `[30, 28, 26]` confirms in variant A
(two consecutive decreases), and `[30, 28, 29, 27, 25]` confirms in
variant B only thanks to the decreases `29→27→25` after the increase. -/
theorem c1_confirmation_iff_two_decreases_witness :
    (runA 15 60 [(0, some 30), (1, some 28), (2, some 26)]).detected = true ∧
    (runB 15 60 [(0, some 30), (1, some 28), (2, some 29), (3, some 27),
      (4, some 25)]).focusApplied = true := by
  constructor
  · refine (c1_confirmation_iff_two_decreases.1 15 60 _ ?_).mpr ?_
    · intro p hp
      fin_cases hp
      · exact ⟨30, rfl, by omega, by omega⟩
      · exact ⟨28, rfl, by omega, by omega⟩
      · exact ⟨26, rfl, by omega, by omega⟩
    · refine ⟨0, 1, by omega, by decide, by decide, ?_⟩
      intro k h1 h2
      omega
  · refine (c1_confirmation_iff_two_decreases.2 15 60 _ ?_).mpr ?_
    · intro p hp
      fin_cases hp
      · exact ⟨30, rfl, by omega, by omega, by omega, by omega⟩
      · exact ⟨28, rfl, by omega, by omega, by omega, by omega⟩
      · exact ⟨29, rfl, by omega, by omega, by omega, by omega⟩
      · exact ⟨27, rfl, by omega, by omega, by omega, by omega⟩
      · exact ⟨25, rfl, by omega, by omega, by omega, by omega⟩
    · refine ⟨2, 3, by omega, by decide, by decide, ?_⟩
      intro k h1 h2
      omega

/-- C9.  In both watcher variants a plateau (newly extracted value equal
to the stored `lastValue`) leaves the `consecutiveDecreases` counter
unchanged while `lastValue` and `lastCheckTime` are refreshed, so a flat
repetition between two strict decreases still reaches confirmation, as
the sequence `[30, 28, 28, 26]` shows in both variants (in variant A the
confirmed element stays stored; in variant B `stopCountdownDetection`
resets the session right after confirming, so the applied focus effect
is the persistent witness). -/
theorem c9_plateau_keeps_counter :
    (∀ (minD maxD now lv tm cd : Nat) (hs dt fa : Bool),
      minD ≤ lv → lv ≤ maxD →
      stepA minD maxD now ⟨some ⟨lv, tm, cd⟩, hs, dt, fa⟩ (some lv)
        = ⟨some ⟨lv, now, cd⟩, hs, dt, fa⟩) ∧
    (∀ (minD maxD now lv tm cd : Nat) (hs dt fa obs : Bool),
      1 ≤ lv → lv ≤ 120 →
      stepB minD maxD now ⟨some ⟨lv, tm, cd⟩, hs, dt, fa, obs⟩ (some lv)
        = ⟨some ⟨lv, now, cd⟩, hs, dt, fa, obs⟩) ∧
    (runA 15 60 [(0, some 30), (1, some 28), (2, some 28), (3, some 26)]).detected = true ∧
    (runB 15 60 [(0, some 30), (1, some 28), (2, some 28), (3, some 26)]).focusApplied
      = true := by
  refine ⟨?_, ?_, by decide, by decide⟩
  · intro minD maxD now lv tm cd hs dt fa hmin hmax
    simp only [stepA, if_neg (show ¬(lv < minD ∨ maxD < lv) by omega),
      if_neg (lt_irrefl lv), if_neg (lt_irrefl lv)]
  · intro minD maxD now lv tm cd hs dt fa obs h1 h120
    simp only [stepB, if_neg (show ¬(lv < 1 ∨ 120 < lv) by omega),
      if_neg (lt_irrefl lv), if_neg (lt_irrefl lv)]

/-- Witness for C9: the plateau step lemmas applied at a concrete tracked
state with counter 1. -/
theorem c9_plateau_keeps_counter_witness :
    stepA 15 60 5 ⟨some ⟨30, 1, 1⟩, false, false, false⟩ (some 30)
      = ⟨some ⟨30, 5, 1⟩, false, false, false⟩ ∧
    stepB 15 60 5 ⟨some ⟨30, 1, 1⟩, false, false, false, true⟩ (some 30)
      = ⟨some ⟨30, 5, 1⟩, false, false, false, true⟩ :=
  ⟨c9_plateau_keeps_counter.1 15 60 5 30 1 1 false false false (by omega) (by omega),
   c9_plateau_keeps_counter.2.1 15 60 5 30 1 1 false false false true (by omega) (by omega)⟩

/-- C3 counterexample.  With `minimumDuration = 15` and
`maximumDuration = 60`, the first observed value 150 is NOT entered into
the element tracker: variant B (`src/unnamed/part_000`) ignores any
value outside its hard `[1, 120]` band before tracking, and variant A
(`src/countdownWatcher.js`) rejects values outside `[15, 60]` before
tracking, contradicting the claim that tracking starts at 150. -/
theorem c3_counterexample_first_value_not_tracked :
    (runB 15 60 [(0, some 150)]).tracker = none ∧
    (runA 15 60 [(0, some 150)]).tracker = none := by decide

/-- C3 amended.  With `[15, 60]` configured: 150 exceeds the hard cap
(120 in variant B, 60 in variant A) and is never tracked.  In variant B
the `[15, 60]` gate is indeed post-hoc: 90 (outside `[15, 60]` but
within `[1, 120]`) is tracked from first sight, a second consecutive
decrease to a value outside `[15, 60]` discards the tracker instead of
focusing, and a second consecutive decrease to an in-range value
confirms — applying the focus effect, after which
`stopCountdownDetection` clears the tracker and resets the session
flags.  In variant A the `[15, 60]` gate applies before tracking, so
90 is never tracked. -/
theorem c3_amended_post_hoc_range_gate :
    (runB 15 60 [(0, some 150)]).tracker = none ∧
    (runB 15 60 [(0, some 150), (1, some 90)]).tracker = some ⟨90, 1, 0⟩ ∧
    runB 15 60 [(0, some 90), (1, some 80), (2, some 70)]
      = ⟨none, false, false, false, true⟩ ∧
    runB 15 60 [(0, some 90), (1, some 80), (2, some 45)]
      = ⟨none, false, false, true, false⟩ ∧
    (runA 15 60 [(0, some 90)]).tracker = none ∧
    (runA 15 60 [(0, some 150), (1, some 45)]).tracker = some ⟨45, 1, 0⟩ := by decide

lemma toNat_charOfNat (n : Nat) (h : n.isValidChar) : (Char.ofNat n).toNat = n := by
  unfold Char.ofNat
  rw [dif_pos h]
  rfl

lemma lowerChar_ne_upper (c u : Char) (hu1 : 'A' ≤ u) (hu2 : u ≤ 'Z') : lowerChar c ≠ u := by
  unfold lowerChar
  have hu1' : 65 ≤ u.toNat := hu1
  have hu2' : u.toNat ≤ 90 := hu2
  split
  case isTrue h =>
    intro heq
    have h1 : 65 ≤ c.toNat := h.1
    have h2 : c.toNat ≤ 90 := h.2
    have hval : (c.toNat + 32).isValidChar := Or.inl (by omega)
    have := congrArg Char.toNat heq
    rw [toNat_charOfNat _ hval] at this
    omega
  case isFalse h =>
    intro heq
    subst heq
    exact h ⟨hu1, hu2⟩

lemma mem_of_isPrefixList (c : Char) (p l : List Char)
    (h : isPrefixList (c :: p) l = true) : c ∈ l := by
  cases l with
  | nil => simp [isPrefixList] at h
  | cons d rest =>
    simp only [isPrefixList, Bool.and_eq_true, decide_eq_true_eq] at h
    exact h.1 ▸ List.mem_cons_self d rest

lemma mem_of_subListAux (c : Char) (p l : List Char)
    (h : subListAux (c :: p) l = true) : c ∈ l := by
  induction l with
  | nil => simp [subListAux, List.isEmpty] at h
  | cons d rest ih =>
    simp only [subListAux, Bool.or_eq_true] at h
    rcases h with h | h
    · exact mem_of_isPrefixList c p (d :: rest) h
    · exact List.mem_cons_of_mem d (ih h)

/-- A lower-cased string can never contain the mixed-case literal
`GoogleActiveViewElement` — the first short-circuit disjunct of
`isElementLikelyAd` is dead code. -/
lemma lowered_never_includes_gave (s : String) :
    strIncludes (lowerStr s) "GoogleActiveViewElement" = false := by
  by_contra hne
  have h : strIncludes (lowerStr s) "GoogleActiveViewElement" = true := by
    revert hne
    cases strIncludes (lowerStr s) "GoogleActiveViewElement" <;> simp
  have hpat : ("GoogleActiveViewElement" : String).toList
      = 'G' :: "oogleActiveViewElement".toList := rfl
  unfold strIncludes at h
  rw [hpat] at h
  have hmem : 'G' ∈ (lowerStr s).toList := mem_of_subListAux _ _ _ h
  have hlist : (lowerStr s).toList = s.toList.map lowerChar := rfl
  rw [hlist] at hmem
  obtain ⟨c, _, hc⟩ := List.mem_map.mp hmem
  exact lowerChar_ne_upper c 'G' (by decide) (by decide) hc

set_option maxRecDepth 4096 in
/-- C4 counterexample.  `contentPenalisedAdvert` carries the named ad
class `advertisement`, yet `isElementLikelyAd` rejects it: that branch
returns `calculateAdConfidence(element) >= 4`, and the −5 main-content
and −4 text-heavy penalties floor its score at 0. -/
theorem c4_counterexample_penalised_ad_class_rejected :
    strIncludes (lowerStr contentPenalisedAdvert.className) "advertisement" = true ∧
    calculateAdConfidence (fun _ _ => false) 600 contentPenalisedAdvert [] = 0 ∧
    isElementLikelyAd (fun _ _ => false) 600 contentPenalisedAdvert = false := by decide

/-- C4 amended.  Only the lower-case class substrings `adsbygoogle`,
`googlesyndication` and `doubleclick` short-circuit `isElementLikelyAd`
to true regardless of the confidence score; the
`GoogleActiveViewElement` disjunct can never fire (the lowercased class
string is compared against a mixed-case literal), and the named ad
classes such as `advertisement` are accepted only when
`calculateAdConfidence ≥ 4`. -/
theorem c4_amended_short_circuit_classes :
    (∀ (cssMatches : Elem → String → Bool) (vh : Nat) (e : Elem),
      (strIncludes (lowerStr e.className) "adsbygoogle" = true ∨
       strIncludes (lowerStr e.className) "googlesyndication" = true ∨
       strIncludes (lowerStr e.className) "doubleclick" = true) →
      isElementLikelyAd cssMatches vh e = true) ∧
    (∀ s : String, strIncludes (lowerStr s) "GoogleActiveViewElement" = false) := by
  constructor
  · intro cssMatches vh e h
    unfold isElementLikelyAd
    rcases h with h | h | h <;> simp [h]
  · exact lowered_never_includes_gave

/-- Witness for C4's amended claim: the short-circuit applied to a plain
`adsbygoogle` element. -/
theorem c4_amended_short_circuit_classes_witness :
    isElementLikelyAd (fun _ _ => false) 600 adsByGoogleElem = true :=
  c4_amended_short_circuit_classes.1 (fun _ _ => false) 600 adsByGoogleElem (Or.inl (by decide))

/-- C10.  `isElementLikelyAd` never forwards the loaded cosmetic
selector set: `matchesEasyListSelectors` on the empty default list is
false for every oracle, the classifier's verdict is invariant under any
two loaded selector sets, and yet the +2 cosmetic-match signal does
exist in `calculateAdConfidence` when selectors are actually passed. -/
theorem c10_loaded_selectors_never_influence_classifier :
    (∀ (cssMatches : Elem → String → Bool) (e : Elem),
      matchesEasyListSelectors cssMatches e [] = false) ∧
    (∀ (cssMatches : Elem → String → Bool) (vh : Nat) (sels1 sels2 : List String) (e : Elem),
      isElementLikelyAdWithLoaded cssMatches vh sels1 e
        = isElementLikelyAdWithLoaded cssMatches vh sels2 e) ∧
    calculateAdConfidence (fun _ _ => true) 600 adsByGoogleElem ["#ad"]
      = calculateAdConfidence (fun _ _ => true) 600 adsByGoogleElem [] + 2 :=
  ⟨fun _ _ => rfl, fun _ _ _ _ _ => rfl, by decide⟩

lemma processLine_exception (host line : String)
    (h1 : strIncludes (trimStr line) "#@#" = true)
    (h2 : strIncludes (trimStr line) "##" = false)
    (h3 : strIncludes (trimStr line) "#?#" = false) :
    processLine host line = ([], []) := by
  unfold processLine
  simp [h1, h2, h3]

/-- C5 counterexample.  A global rule plus an explicit `#@#` exception
for the current hostname: the parser still returns the selector — the
exception suppresses nothing, contradicting the claim that the selector
is absent. -/
theorem c5_counterexample_exception_not_suppressing :
    parseCosmeticFilters "##.ad-banner\nexample.com#@#.ad-banner" "example.com"
      = [".ad-banner"] := by decide

/-- C5 amended.  `parseCosmeticFilters` returns the global `##`
selectors followed by the `##` selectors whose domain list matches the
current hostname; `#@#` exception lines (containing neither `##` nor
`#?#`) contribute nothing at all, so a globally-listed selector with a
matching exception is still returned. -/
theorem c5_amended_exceptions_ignored :
    (∀ (host line : String) (ls1 ls2 : List String),
      strIncludes (trimStr line) "#@#" = true →
      strIncludes (trimStr line) "##" = false →
      strIncludes (trimStr line) "#?#" = false →
      parseLines host (ls1 ++ line :: ls2) = parseLines host (ls1 ++ ls2)) ∧
    parseLines "example.com"
      ["##.ad-banner", "! comment", "other.com##.x", "example.com##.y",
       "example.com#@#.ad-banner"]
      = [".ad-banner", ".y"] := by
  constructor
  · intro host line ls1 ls2 h1 h2 h3
    unfold parseLines
    rw [List.foldl_append, List.foldl_append, List.foldl_cons]
    have hpl := processLine_exception host line h1 h2 h3
    simp [hpl]
  · decide

/-- Witness for C5's amended claim: dropping the exception line from a
filter list does not change the parse result. -/
theorem c5_amended_exceptions_ignored_witness :
    parseLines "example.com" (["##.ad-banner"] ++ "example.com#@#.ad-banner" :: [])
      = parseLines "example.com" (["##.ad-banner"] ++ []) :=
  c5_amended_exceptions_ignored.1 "example.com" "example.com#@#.ad-banner" ["##.ad-banner"] []
    (by decide) (by decide) (by decide)

lemma stepM_confirmed_frozen (minD maxD : Nat) (s : MState) (ev : Nat × Nat × Option Nat)
    (h : s.hasScrolledToCountdown = true) :
    (stepM minD maxD s ev).hasScrolledToCountdown = true ∧
    (stepM minD maxD s ev).detectedCountdownElement = s.detectedCountdownElement := by
  obtain ⟨e, now, v⟩ := ev
  cases v with
  | none =>
    simp only [stepM]
    split <;> simp [h]
  | some n =>
    simp only [stepM]
    split
    · split <;> simp [h]
    · cases hl : lookupTracker s.elementTracker e with
      | none => simp [h]
      | some t =>
        simp [h]
        split_ifs <;> simp

lemma stepM_preserves_inv (minD maxD : Nat) (s : MState) (ev : Nat × Nat × Option Nat)
    (h : s.detectedCountdownElement.isSome = true → s.hasScrolledToCountdown = true) :
    (stepM minD maxD s ev).detectedCountdownElement.isSome = true →
    (stepM minD maxD s ev).hasScrolledToCountdown = true := by
  obtain ⟨e, now, v⟩ := ev
  cases v with
  | none =>
    simp only [stepM]
    split
    · exact h
    · exact h
  | some n =>
    simp only [stepM]
    split
    · split
      · exact h
      · exact h
    · cases hl : lookupTracker s.elementTracker e with
      | none => exact h
      | some t =>
        dsimp only
        split_ifs with h1 h2 h3
        · intro _; rfl
        · exact h
        · exact h
        · exact h

lemma foldM_inv (minD maxD : Nat) :
    ∀ (evs : List (Nat × Nat × Option Nat)) (s : MState),
    (s.detectedCountdownElement.isSome = true → s.hasScrolledToCountdown = true) →
    ((evs.foldl (stepM minD maxD) s).detectedCountdownElement.isSome = true →
     (evs.foldl (stepM minD maxD) s).hasScrolledToCountdown = true) := by
  intro evs
  induction evs with
  | nil => intro s h; exact h
  | cons p rest ih => intro s h; exact ih _ (stepM_preserves_inv minD maxD s p h)

lemma foldM_frozen (minD maxD : Nat) :
    ∀ (evs : List (Nat × Nat × Option Nat)) (s : MState),
    s.hasScrolledToCountdown = true →
    (evs.foldl (stepM minD maxD) s).hasScrolledToCountdown = true ∧
    (evs.foldl (stepM minD maxD) s).detectedCountdownElement = s.detectedCountdownElement := by
  intro evs
  induction evs with
  | nil => intro s h; exact ⟨h, rfl⟩
  | cons p rest ih =>
    intro s h
    have hstep := stepM_confirmed_frozen minD maxD s p h
    have hrest := ih (stepM minD maxD s p) hstep.1
    exact ⟨hrest.1, hrest.2.trans hstep.2⟩

/-- C6.  In every reachable session state, a non-null
`detectedCountdownElement` implies `hasScrolledToCountdown`, and once
the session is confirmed no later event of any element can change the
confirmed element or clear the flag — at most one element is confirmed
per session. -/
theorem c6_at_most_one_confirmed_element :
    (∀ (minD maxD : Nat) (evs : List (Nat × Nat × Option Nat)),
      (runM minD maxD evs).detectedCountdownElement.isSome = true →
      (runM minD maxD evs).hasScrolledToCountdown = true) ∧
    (∀ (minD maxD : Nat) (evs evs' : List (Nat × Nat × Option Nat)),
      (runM minD maxD evs).hasScrolledToCountdown = true →
      (runM minD maxD (evs ++ evs')).detectedCountdownElement
          = (runM minD maxD evs).detectedCountdownElement ∧
      (runM minD maxD (evs ++ evs')).hasScrolledToCountdown = true) := by
  constructor
  · intro minD maxD evs
    refine foldM_inv minD maxD evs initM ?_
    intro habs
    simp [initM] at habs
  · intro minD maxD evs evs' h
    have hsplit : runM minD maxD (evs ++ evs')
        = evs'.foldl (stepM minD maxD) (runM minD maxD evs) := by
      simp [runM, List.foldl_append]
    rw [hsplit]
    have hfr := foldM_frozen minD maxD evs' (runM minD maxD evs) h
    exact ⟨hfr.2, hfr.1⟩

/-- Witness for C6: element 0 confirms with `[30, 28, 26]`; element 1's
subsequent decreasing run `[50, 40, 30]` cannot steal the confirmation. -/
theorem c6_at_most_one_confirmed_element_witness :
    (runM 15 60 [(0, 0, some 30), (0, 1, some 28), (0, 2, some 26)]).detectedCountdownElement
      = some 0 ∧
    (runM 15 60 ([(0, 0, some 30), (0, 1, some 28), (0, 2, some 26)] ++
        [(1, 3, some 50), (1, 4, some 40), (1, 5, some 30)])).detectedCountdownElement
      = some 0 := by
  have h := c6_at_most_one_confirmed_element.2 15 60
    [(0, 0, some 30), (0, 1, some 28), (0, 2, some 26)]
    [(1, 3, some 50), (1, 4, some 40), (1, 5, some 30)] (by decide)
  exact ⟨by decide, h.1.trans (by decide)⟩

/-- C7 counterexample.  `nav` is one of the spec's essential structural
tags, yet `createAdOverlay` creates an overlay for a reasonably sized
`<nav>` anchor: the source only rejects `body` and `html`. -/
theorem c7_counterexample_nav_anchor_covered :
    essentialElements.contains "nav" = true ∧
    (createAdOverlay emptyOverlayState navAnchor 1000 800 true).1 = some 0 := by decide

/-- C7 amended.  For an uncovered anchor, `createAdOverlay` returns null
and leaves every record untouched when the anchor is `body`/`html` or
its box exceeds 90% of the viewport width or 60% of its height or
either dimension is below 2px; and when the DOM insertion throws, the
covered set and the marker attribute are rolled back, the overlay map
and document are untouched, and null is returned instead of an
exception. -/
theorem c7_amended_rejections_and_rollback :
    (∀ (st : OverlayState) (e : OElem) (vw vh : Nat) (ok : Bool),
      st.covered.contains e.id = false →
      (lowerStr e.tagName == "body" || lowerStr e.tagName == "html") = true →
      createAdOverlay st e vw vh ok = (none, st)) ∧
    (∀ (st : OverlayState) (e : OElem) (vw vh : Nat) (ok : Bool),
      st.covered.contains e.id = false →
      (lowerStr e.tagName == "body" || lowerStr e.tagName == "html") = false →
      (10 * e.width > 9 * vw ∨ 10 * e.height > 6 * vh ∨ e.width < 2 ∨ e.height < 2) →
      createAdOverlay st e vw vh ok = (none, st)) ∧
    (∀ (st : OverlayState) (e : OElem) (vw vh : Nat),
      st.covered.contains e.id = false →
      (lowerStr e.tagName == "body" || lowerStr e.tagName == "html") = false →
      ¬(10 * e.width > 9 * vw ∨ 10 * e.height > 6 * vh ∨ e.width < 2 ∨ e.height < 2) →
      (createAdOverlay st e vw vh false).1 = none ∧
      (createAdOverlay st e vw vh false).2.covered = st.covered ∧
      (createAdOverlay st e vw vh false).2.marked = st.marked ∧
      (createAdOverlay st e vw vh false).2.overlays = st.overlays ∧
      (createAdOverlay st e vw vh false).2.domOverlays = st.domOverlays) := by
  refine ⟨?_, ?_, ?_⟩
  · intro st e vw vh ok h1 h2
    simp only [createAdOverlay, h1, h2]
    simp
  · intro st e vw vh ok h1 h2 h3
    simp only [createAdOverlay, h1, h2]
    simp [h3]
  · intro st e vw vh h1 h2 h3
    simp only [createAdOverlay, h1, h2]
    simp [h3, List.erase_cons_head]

/-- Witness for C7's amended claim: the three rejection/rollback cases
at concrete anchors. -/
theorem c7_amended_rejections_and_rollback_witness :
    createAdOverlay emptyOverlayState ⟨1, "BODY", 300, 250⟩ 1000 800 true
      = (none, emptyOverlayState) ∧
    createAdOverlay emptyOverlayState ⟨2, "DIV", 950, 100⟩ 1000 800 true
      = (none, emptyOverlayState) ∧
    (createAdOverlay emptyOverlayState ⟨3, "DIV", 300, 250⟩ 1000 800 false).2.covered = [] := by
  refine ⟨?_, ?_, ?_⟩
  · exact c7_amended_rejections_and_rollback.1 emptyOverlayState ⟨1, "BODY", 300, 250⟩
      1000 800 true (by decide) (by decide)
  · exact c7_amended_rejections_and_rollback.2.1 emptyOverlayState ⟨2, "DIV", 950, 100⟩
      1000 800 true (by decide) (by decide) (by decide)
  · exact (c7_amended_rejections_and_rollback.2.2 emptyOverlayState ⟨3, "DIV", 300, 250⟩
      1000 800 (by decide) (by decide) (by decide)).2.1

/-- C8.  Covering the same uncovered anchor twice without an intervening
`removeAdOverlay` is idempotent: the second call returns the same
overlay handle, changes nothing, and exactly one overlay map entry
exists for the anchor. -/
theorem c8_cover_idempotent (st : OverlayState) (e : OElem) (vw vh : Nat)
    (h1 : st.covered.contains e.id = false)
    (h2 : (lowerStr e.tagName == "body" || lowerStr e.tagName == "html") = false)
    (h3 : ¬(10 * e.width > 9 * vw ∨ 10 * e.height > 6 * vh ∨ e.width < 2 ∨ e.height < 2))
    (h4 : st.overlays.countP (fun p => p.1 == e.id) = 0) :
    (createAdOverlay st e vw vh true).1 = some st.nextOverlayId ∧
    (createAdOverlay (createAdOverlay st e vw vh true).2 e vw vh true).1
      = (createAdOverlay st e vw vh true).1 ∧
    (createAdOverlay (createAdOverlay st e vw vh true).2 e vw vh true).2
      = (createAdOverlay st e vw vh true).2 ∧
    (createAdOverlay st e vw vh true).2.overlays.countP (fun p => p.1 == e.id) = 1 := by
  have hfirst : createAdOverlay st e vw vh true
      = (some st.nextOverlayId,
          ⟨e.id :: st.covered, (e.id, st.nextOverlayId) :: st.overlays, e.id :: st.marked,
            st.nextOverlayId :: st.domOverlays, st.nextOverlayId + 1⟩) := by
    simp only [createAdOverlay, h1, h2]
    simp [h3]
  have hcov : ((e.id :: st.covered).contains e.id) = true := by simp
  have hlook : lookupOverlay ((e.id, st.nextOverlayId) :: st.overlays) e.id
      = some st.nextOverlayId := by
    unfold lookupOverlay
    rw [List.find?_cons_of_pos _ (by simp)]
    rfl
  have hsecond : createAdOverlay
      ⟨e.id :: st.covered, (e.id, st.nextOverlayId) :: st.overlays, e.id :: st.marked,
        st.nextOverlayId :: st.domOverlays, st.nextOverlayId + 1⟩ e vw vh true
      = (some st.nextOverlayId,
          ⟨e.id :: st.covered, (e.id, st.nextOverlayId) :: st.overlays, e.id :: st.marked,
            st.nextOverlayId :: st.domOverlays, st.nextOverlayId + 1⟩) := by
    unfold createAdOverlay
    dsimp only
    rw [if_pos hcov, hlook]
  refine ⟨?_, ?_, ?_, ?_⟩
  · rw [hfirst]
  · rw [hfirst]
    dsimp only
    rw [hsecond]
  · rw [hfirst]
    dsimp only
    rw [hsecond]
  · rw [hfirst]
    dsimp only
    simp [List.countP_cons, h4]

/-- Witness for C8: covering a fresh standard-sized anchor twice. -/
theorem c8_cover_idempotent_witness :
    (createAdOverlay emptyOverlayState ⟨7, "DIV", 300, 250⟩ 1000 800 true).1 = some 0 ∧
    (createAdOverlay (createAdOverlay emptyOverlayState ⟨7, "DIV", 300, 250⟩ 1000 800 true).2
        ⟨7, "DIV", 300, 250⟩ 1000 800 true).1
      = (createAdOverlay emptyOverlayState ⟨7, "DIV", 300, 250⟩ 1000 800 true).1 := by
  have h := c8_cover_idempotent emptyOverlayState ⟨7, "DIV", 300, 250⟩ 1000 800
    (by decide) (by decide) (by simp) (by decide)
  exact ⟨h.1, h.2.1⟩

/-- C2.  Evaluating disable at the failing input: the tracker, debounce
timers and session flags are indeed reset, but the tracked element's
500 ms monitor interval is still live afterwards, and
`removeAllOverlays` (here with the anchor 5 absent from the document)
clears the covered set while leaving overlay node 7 in the document —
contradicting the claim that zero timers and zero overlays remain. -/
theorem c2_disable_leaves_polls_and_stale_overlays :
    (setEnabledFalse liveWatcher).elementTracker = [] ∧
    (setEnabledFalse liveWatcher).debounceTimers = [] ∧
    (setEnabledFalse liveWatcher).hasScrolledToCountdown = false ∧
    (setEnabledFalse liveWatcher).detectedCountdownElement = none ∧
    (setEnabledFalse liveWatcher).observing = false ∧
    (setEnabledFalse liveWatcher).monitorIntervals = [0] ∧
    (removeAllOverlays [] ⟨[5], [(5, 7)], [5], [7], 8⟩).covered = [] ∧
    (removeAllOverlays [] ⟨[5], [(5, 7)], [5], [7], 8⟩).domOverlays = [7] := by decide
